import Mathlib

/-!
Shallow embedding of `src/backend/index.js` (an Express + Mongoose task
service) and proofs about its behaviour.

The service defines a Mongoose schema with two optional string paths,
`title` and `description`, and three routes:

* `GET /`      — responds `200 "Backend is running!"`, touching no storage;
* `GET /tasks` — `Task.find()`, returning every stored document;
* `POST /tasks` — `new Task(req.body)` (schema paths copied from the body,
  everything else discarded, an `_id` generated), then `task.save()`,
  responding with the saved document.
-/

namespace MeanCrud

/-- A stored document. The Mongoose schema (`TaskSchema`) declares exactly
the paths `title` and `description`, both optional strings; the storage
layer adds the generated identifier `_id`. -/
structure Task where
  _id : String
  title : Option String
  description : Option String
deriving Repr, DecidableEq

/-- The document store backing the service: the sequence of saved documents
in insertion order, together with the storage layer's creation counter that
drives identifier generation. -/
structure Store where
  docs : List Task
  nextId : Nat
deriving Repr, DecidableEq

/-- A store holding no documents. -/
def Store.empty : Store := ⟨[], 0⟩

/-- A parsed JSON request body, as produced by `express.json()`: an
association list of field names to values. -/
abbrev Body := List (String × String)

/-- Reading a field from a request body. -/
def getField (body : Body) (k : String) : Option String :=
  (body.find? (fun p => p.1 == k)).map (fun p => p.2)

/-- Modelled from the spec: the storage layer's identifier generator for
`_id` ("system-generated unique identifier"). The real generator, a
MongoDB ObjectId, lives in the mongoose library, not in this repository;
it is modelled as an injective function of the storage layer's creation
counter returning a non-empty string. -/
def genId (n : Nat) : String := String.mk ('o' :: 'i' :: 'd' :: List.replicate n '0')

/-- `new Task(req.body)`: the schema paths `title` and `description` are
copied from the body, every other field of the body is discarded, and the
generated identifier is attached. -/
def newTask (body : Body) (id : String) : Task :=
  ⟨id, getField body "title", getField body "description"⟩

/-- `POST /tasks` at the store level: build the document from the request
body, save it, and return the saved document together with the new store. -/
def createTask (s : Store) (body : Body) : Task × Store :=
  let t := newTask body (genId s.nextId)
  (t, ⟨s.docs ++ [t], s.nextId + 1⟩)

/-- `GET /tasks` at the store level: `Task.find()` returns every stored
document, in storage order, with no pagination, filtering or sorting. -/
def listTasks (s : Store) : List Task := s.docs

/-- The storage backend as seen by the service: the store plus whether the
backend is reachable. -/
structure DB where
  up : Bool
  store : Store
deriving Repr, DecidableEq

/-- Modelled from the spec: the outcome of a route whose handler touches
storage. A storage fault propagates out of the handler unhandled and the
framework converts it into a generic server error response; the process
keeps serving (`serverError` is a response, not a crash), with no retry. -/
inductive RouteResult (α : Type) where
  | success (val : α)
  | serverError
deriving Repr, DecidableEq

/-- `GET /`: responds `200` with a static string. The handler never touches
the storage backend, so the response is the same whether or not the backend
is reachable, and the state is untouched. -/
def rootRoute (db : DB) : (Nat × String) × DB :=
  ((200, "Backend is running!"), db)

/-- `GET /tasks`: `Task.find()` then `res.json(tasks)`. If the backend is
unreachable the awaited find rejects and the fault becomes a generic server
error response. -/
def getTasksRoute (db : DB) : RouteResult (List Task) × DB :=
  if db.up then
    (RouteResult.success (listTasks db.store), db)
  else
    (RouteResult.serverError, db)

/-- `POST /tasks`: `new Task(req.body)`, `task.save()`, `res.json(task)`.
If the backend is unreachable the awaited save rejects and the fault
becomes a generic server error response, with nothing stored. -/
def postTasksRoute (db : DB) (body : Body) : RouteResult Task × DB :=
  if db.up then
    let r := createTask db.store body
    (RouteResult.success r.1, ⟨db.up, r.2⟩)
  else
    (RouteResult.serverError, db)

/-- The operations the service exposes, for reasoning about request
sequences. -/
inductive Op where
  | root
  | list
  | create (body : Body)
deriving Repr, DecidableEq

/-- Whether an operation is a create (the only write). -/
def Op.isCreate : Op → Bool
  | .create _ => true
  | _ => false

/-- The effect of one operation on the store. Only `create` writes. -/
def applyOp (s : Store) : Op → Store
  | .root => s
  | .list => s
  | .create b => (createTask s b).2

/-- Running a sequence of operations against the store. -/
def runOps (s : Store) (ops : List Op) : Store := ops.foldl applyOp s

/-- The identifiers of all stored documents. -/
def idsOf (s : Store) : List String := s.docs.map Task._id

/-- Invariant tying stored identifiers to the creation counter: every
stored document carries an identifier generated from a counter value below
the current one. -/
def idsBounded (s : Store) : Prop :=
  ∀ t ∈ s.docs, ∃ k, k < s.nextId ∧ t._id = genId k

theorem genId_length (n : Nat) : (genId n).length = n + 3 := by
  simp [genId, String.length]

theorem genId_injective : Function.Injective genId := by
  intro a b h
  have h' := congrArg String.length h
  rw [genId_length, genId_length] at h'
  omega

theorem genId_ne_empty (n : Nat) : genId n ≠ "" := by
  intro h
  have h' := congrArg String.length h
  rw [genId_length] at h'
  simp [String.length] at h'

/-- `goodStore`: the store's identifiers are all generated from counter
values below the current counter, and are pairwise distinct. -/
def goodStore (s : Store) : Prop := idsBounded s ∧ (idsOf s).Nodup

theorem goodStore_empty : goodStore Store.empty := by
  constructor
  · intro t ht
    simp [Store.empty] at ht
  · simp [idsOf, Store.empty]

theorem goodStore_applyOp (s : Store) (op : Op) (h : goodStore s) :
    goodStore (applyOp s op) := by
  cases op with
  | root => exact h
  | list => exact h
  | create b =>
    obtain ⟨hb, hn⟩ := h
    have hnotin : genId s.nextId ∉ idsOf s := by
      intro hmem
      simp only [idsOf, List.mem_map] at hmem
      obtain ⟨t, ht, he⟩ := hmem
      obtain ⟨k, hk, he2⟩ := hb t ht
      rw [he2] at he
      exact absurd (genId_injective he) (Nat.ne_of_lt hk)
    constructor
    · intro t ht
      simp only [applyOp, createTask, List.mem_append, List.mem_singleton] at ht
      cases ht with
      | inl ht =>
        obtain ⟨k, hk, he⟩ := hb t ht
        exact ⟨k, Nat.lt_succ_of_lt hk, he⟩
      | inr ht =>
        exact ⟨s.nextId, Nat.lt_succ_self _, by rw [ht]; rfl⟩
    · have hrw : idsOf (applyOp s (.create b)) = idsOf s ++ [genId s.nextId] := by
        simp [applyOp, createTask, idsOf, newTask]
      rw [hrw]
      exact List.Nodup.append hn (List.nodup_singleton _)
        (by simpa [List.disjoint_singleton] using hnotin)

theorem goodStore_runOps (s : Store) (ops : List Op) (h : goodStore s) :
    goodStore (runOps s ops) := by
  induction ops generalizing s with
  | nil => exact h
  | cons op rest ih => exact ih (applyOp s op) (goodStore_applyOp s op h)

theorem runOps_no_create (s : Store) (ops : List Op)
    (h : ∀ op ∈ ops, op.isCreate = false) : runOps s ops = s := by
  induction ops generalizing s with
  | nil => rfl
  | cons op rest ih =>
    have h1 : applyOp s op = s := by
      cases op with
      | root => rfl
      | list => rfl
      | create b =>
        have := h (.create b) (List.mem_cons_self _ _)
        simp [Op.isCreate] at this
    have h2 : runOps s (op :: rest) = runOps (applyOp s op) rest := rfl
    rw [h2, h1]
    exact ih s (fun o ho => h o (List.mem_cons_of_mem op ho))

/-- Claim C1: creating a task with body `{"title":"A","description":"B"}`
on an initially empty store (any counter value) and then listing tasks
yields exactly one entry, with title `"A"`, description `"B"`, and a
non-empty generated identifier. -/
theorem create_then_list_on_empty (n : Nat) :
    listTasks (createTask ⟨[], n⟩ [("title", "A"), ("description", "B")]).2
      = [⟨genId n, some "A", some "B"⟩]
    ∧ genId n ≠ "" :=
  ⟨rfl, genId_ne_empty n⟩

/-- Claim C2: posting a body containing fields beyond `title` and
`description` still succeeds — the created document carries the recognized
fields, and exactly the new document is appended to the store, for every
list of extra fields. -/
theorem create_ignores_unknown_fields (s : Store) (a d : String) (extras : Body) :
    ((createTask s (("title", a) :: ("description", d) :: extras)).1).title = some a
    ∧ ((createTask s (("title", a) :: ("description", d) :: extras)).1).description = some d
    ∧ (createTask s (("title", a) :: ("description", d) :: extras)).2.docs
        = s.docs ++ [(createTask s (("title", a) :: ("description", d) :: extras)).1] :=
  ⟨rfl, rfl, rfl⟩

/-- Claim C3: any two consecutive creates generate distinct identifiers,
and across any sequence of operations from the empty store, all stored
identifiers are pairwise distinct (the uniqueness comes from the storage
layer's counter, not from route logic). -/
theorem identifiers_unique (ops : List Op) (s : Store) (b₁ b₂ : Body) :
    (idsOf (runOps Store.empty ops)).Nodup
    ∧ ((createTask s b₁).1)._id ≠ ((createTask (createTask s b₁).2 b₂).1)._id := by
  constructor
  · exact (goodStore_runOps Store.empty ops goodStore_empty).2
  · intro h
    have h' : genId s.nextId = genId (s.nextId + 1) := h
    have := genId_injective h'
    omega

/-- Claim C4: listing returns the full stored sequence, unpaginated,
unfiltered and unsorted, and after a sequence of operations containing no
write the store listed from empty is still the empty sequence. -/
theorem list_returns_all (s : Store) (ops : List Op)
    (h : ∀ op ∈ ops, op.isCreate = false) :
    listTasks s = s.docs ∧ listTasks (runOps Store.empty ops) = [] := by
  refine ⟨rfl, ?_⟩
  rw [runOps_no_create Store.empty ops h]
  rfl

theorem list_returns_all_witness :
    listTasks ⟨[⟨genId 0, some "A", none⟩], 1⟩ = [⟨genId 0, some "A", none⟩]
    ∧ listTasks (runOps Store.empty [Op.root, Op.list]) = [] :=
  list_returns_all ⟨[⟨genId 0, some "A", none⟩], 1⟩ [Op.root, Op.list] (by decide)

/-- Claim C5: a successful create inserts exactly one document — the new
store is the old one with the created document appended — and the response
is the stored entity itself, carrying the generated identifier. -/
theorem create_inserts_one (s : Store) (b : Body) :
    (createTask s b).2.docs = s.docs ++ [(createTask s b).1]
    ∧ (createTask s b).2.docs.length = s.docs.length + 1
    ∧ (createTask s b).1 ∈ (createTask s b).2.docs
    ∧ ((createTask s b).1)._id = genId s.nextId :=
  ⟨rfl, by simp [createTask], by simp [createTask], rfl⟩

/-- Claim C6: no exposed operation updates or deletes a stored task: after
any sequence of operations the previously stored documents are still there,
unchanged and in place (the new store's documents extend the old ones), so
every task and its identifier persist. -/
theorem tasks_never_updated_or_deleted (s : Store) (ops : List Op) :
    ∃ rest, (runOps s ops).docs = s.docs ++ rest := by
  induction ops generalizing s with
  | nil => exact ⟨[], by simp [runOps]⟩
  | cons op more ih =>
    obtain ⟨r1, h1⟩ : ∃ r1, (applyOp s op).docs = s.docs ++ r1 := by
      cases op with
      | root => exact ⟨[], by simp [applyOp]⟩
      | list => exact ⟨[], by simp [applyOp]⟩
      | create b => exact ⟨[(createTask s b).1], rfl⟩
    obtain ⟨r2, h2⟩ := ih (applyOp s op)
    refine ⟨r1 ++ r2, ?_⟩
    have h3 : runOps s (op :: more) = runOps (applyOp s op) more := rfl
    rw [h3, h2, h1, List.append_assoc]

/-- Claim C7: the root route returns HTTP 200 with the static string
`"Backend is running!"` and leaves the state untouched, for every storage
state — reachable or not. -/
theorem root_always_ok (db : DB) :
    rootRoute db = ((200, "Backend is running!"), db) := rfl

/-- Claim C8: listing tasks is read-only: the `GET /tasks` route leaves
the storage state exactly as it found it, whatever that state is. -/
theorem list_read_only (db : DB) : (getTasksRoute db).2 = db := by
  unfold getTasksRoute
  split <;> rfl

/-- Claim C9: when the storage backend is unreachable, both storage-backed
routes answer with a generic server error response (a response, not a
crash), the store is untouched and nothing is retried. -/
theorem storage_error_handling (db : DB) (b : Body) (h : db.up = false) :
    getTasksRoute db = (RouteResult.serverError, db)
    ∧ postTasksRoute db b = (RouteResult.serverError, db) := by
  constructor <;> simp [getTasksRoute, postTasksRoute, h]

theorem storage_error_handling_witness :
    getTasksRoute ⟨false, Store.empty⟩ = (RouteResult.serverError, ⟨false, Store.empty⟩)
    ∧ postTasksRoute ⟨false, Store.empty⟩ [] = (RouteResult.serverError, ⟨false, Store.empty⟩) :=
  storage_error_handling ⟨false, Store.empty⟩ [] rfl

/-- Claim C10: a stored document has no fields beyond the identifier,
title and description (the `Task` record has exactly these three), and a
body supplying neither title nor description still succeeds, storing a
document carrying only the generated identifier. -/
theorem stored_fields_schema_only (s : Store) (b : Body)
    (ht : getField b "title" = none) (hd : getField b "description" = none) :
    (createTask s b).1 = ⟨genId s.nextId, none, none⟩
    ∧ (createTask s b).2.docs = s.docs ++ [⟨genId s.nextId, none, none⟩] := by
  have h1 : (createTask s b).1 = ⟨genId s.nextId, none, none⟩ := by
    simp [createTask, newTask, ht, hd]
  refine ⟨h1, ?_⟩
  have h2 : (createTask s b).2.docs = s.docs ++ [(createTask s b).1] := rfl
  rw [h2, h1]

theorem stored_fields_schema_only_witness :
    (createTask Store.empty [("bogus", "x")]).1 = ⟨genId 0, none, none⟩
    ∧ (createTask Store.empty [("bogus", "x")]).2.docs
        = Store.empty.docs ++ [⟨genId 0, none, none⟩] :=
  stored_fields_schema_only Store.empty [("bogus", "x")] (by decide) (by decide)

end MeanCrud
